import Mathlib

/- Verification development for the argocd-extension-metrics server:
a shallow embedding of the prometheus provider's query resolution and
aggregation pipeline (package server) with proofs about its behavior. -/

set_option maxRecDepth 4096

namespace ArgoMetrics

/- ## Association-list primitives

The Go code works with `map[string][]string` (url.Values) and
`map[string]string`.  Go maps with the keys used here are modelled as
association lists; iteration order of a Go map is unspecified, so the
list order stands for one arbitrary iteration order. -/

/-- First value bound to a key in a `map[string]string` model. -/
def lookupStr : List (String × String) → String → Option String
  | [], _ => none
  | (k, v) :: rest, key => if k = key then some v else lookupStr rest key

/-- First value bound to a key in a `map[string][]string` (url.Values) model. -/
def lookupParam : List (String × List String) → String → Option (List String)
  | [], _ => none
  | (k, v) :: rest, key => if k = key then some v else lookupParam rest key

/-- Model of Go `url.Values.Get`: the first value for the key, `""` when absent. -/
def queryGet (env : List (String × List String)) (key : String) : String :=
  match lookupParam env key with
  | some (v :: _) => v
  | _ => ""

/-- Substring test over char lists: does `l` start with `p`? -/
def listHasPrefix : List Char → List Char → Bool
  | _, [] => true
  | [], _ :: _ => false
  | c :: rest, p :: ps => c == p && listHasPrefix rest ps

/-- Substring test over char lists: does `sub` occur contiguously in `l`? -/
def listContainsSeq : List Char → List Char → Bool
  | l, sub =>
    if listHasPrefix l sub then true
    else match l with
      | [] => false
      | _ :: rest => listContainsSeq rest sub

/-- Does string `sub` occur as a contiguous substring of `s`? -/
def strContains (s sub : String) : Bool :=
  listContainsSeq s.data sub.data

/- ## HTML escaping

`executeGraphQuery` renders queries with Go's `html/template` (imported as
`html/template` in the source), whose contextual auto-escaper HTML-escapes
interpolated data in a plain-text context using the replacement table
NUL -> U+FFFD, quote -> "&#34;", ampersand -> "&amp;",
apostrophe -> "&#39;", less-than -> "&lt;", greater-than -> "&gt;". -/

/-- One character's image under the html/template HTML replacement table. -/
def htmlEscapeChar (c : Char) : String :=
  if c = Char.ofNat 0 then String.mk [Char.ofNat 0xFFFD]
  else if c = '"' then "&#34;"
  else if c = '&' then "&amp;"
  else if c = Char.ofNat 39 then "&#39;"
  else if c = '<' then "&lt;"
  else if c = '>' then "&gt;"
  else String.mk [c]

/-- HTML-escape every character of a char list. -/
def htmlEscapeList : List Char → String
  | [] => ""
  | c :: rest => htmlEscapeChar c ++ htmlEscapeList rest

/-- HTML-escape a string (the html/template escaping of interpolated data). -/
def htmlEscape (s : String) : String :=
  htmlEscapeList s.data

/- ## Template engine

Model of the html/template fragment exercised by the source: literal text
interleaved with variable-substitution actions of the shape
open-brace open-brace dot name close-brace close-brace (with optional
spaces inside the action).  All other template syntax is mapped to a parse
error; spec section 4.2 makes substitution the only required contract. -/

/-- A parsed template part: literal text or a substitution action. -/
inductive TmplPart where
  | lit (s : String)
  | field (name : String)
deriving DecidableEq

/-- Characters accepted in an action's field name. -/
def isIdentChar (c : Char) : Bool :=
  c.isAlphanum || c == '_'

/-- Split off the longest identifier prefix of a char list. -/
def takeIdent : List Char → List Char × List Char
  | [] => ([], [])
  | c :: rest =>
    if isIdentChar c then
      let p := takeIdent rest
      (c :: p.1, p.2)
    else ([], c :: rest)

/-- Drop leading spaces. -/
def skipSpaces : List Char → List Char
  | ' ' :: rest => skipSpaces rest
  | l => l

/-- Parse the inside of an action (after the opening braces): optional
spaces, a dot, a field name, optional spaces, the two closing braces.
Returns the field name and the remainder after the action. -/
def parseAction (cs : List Char) : Except String (String × List Char) :=
  match skipSpaces cs with
  | '.' :: rest =>
    match takeIdent rest with
    | ([], _) => Except.error "template: bad action"
    | (name, rest1) =>
      match skipSpaces rest1 with
      | '}' :: '}' :: rest2 => Except.ok (String.mk name, rest2)
      | _ => Except.error "template: bad action"
  | _ => Except.error "template: bad action"

/-- Flush a pending literal-run accumulator into at most one literal part. -/
def flushLit (l : List Char) : List TmplPart :=
  if l = [] then [] else [TmplPart.lit (String.mk l)]

/-- Fuel-driven template scanner: splits the input into literal runs and
substitution actions.  Fuel at least the input length always suffices,
since every step consumes at least one character. -/
def parseTemplateAux : Nat → List Char → List Char → List TmplPart →
    Except String (List TmplPart)
  | _, [], litAcc, acc => Except.ok (acc ++ flushLit litAcc)
  | 0, _ :: _, _, _ => Except.error "template: fuel exhausted"
  | fuel + 1, '{' :: '{' :: rest, litAcc, acc =>
    match parseAction rest with
    | Except.error e => Except.error e
    | Except.ok (name, rest2) =>
      parseTemplateAux fuel rest2 [] (acc ++ flushLit litAcc ++ [TmplPart.field name])
  | fuel + 1, c :: rest, litAcc, acc =>
    parseTemplateAux fuel rest (litAcc ++ [c]) acc

/-- Model of template.New("query").Parse on the modelled fragment. -/
def parseTemplate (s : String) : Except String (List TmplPart) :=
  parseTemplateAux (s.length + 1) s.data [] []

/-- Model of tmpl.Execute into a buffer: literals pass through verbatim,
actions substitute the (HTML-escaped) bound value, a missing key
substitutes the zero value `""` (Go map indexing on `map[string]string`). -/
def renderTemplate (env1 : List (String × String)) : List TmplPart → String
  | [] => ""
  | TmplPart.lit s :: rest => s ++ renderTemplate env1 rest
  | TmplPart.field k :: rest =>
    htmlEscape ((lookupStr env1 k).getD "") ++ renderTemplate env1 rest

/- ## Duration parsing

`execute` parses the request's `duration` query parameter with Go's
`time.ParseDuration`.  The model below follows the Go standard library's
algorithm (sign, special case "0", repeated number-fraction-unit groups,
the ns/us/ms/s/m/h unit map, 2^63 overflow guards); the only deliberate
simplification is that a fractional part contributes
`f * unit / scale` in integer arithmetic where Go rounds through float64,
a sub-nanosecond difference irrelevant to success or failure. -/

/-- Go strconv-style quoting as used by time errors (inputs here are
printable, so quoting is wrapping in double quotes). -/
def quoteGo (s : String) : String :=
  "\"" ++ s ++ "\""

/-- Model of Go time's leadingInt: consume leading digits into a value,
failing (errLeadingInt) past the 2^63 overflow guard. -/
def leadingIntAux (x : Nat) : List Char → Except Unit (Nat × List Char)
  | [] => Except.ok (x, [])
  | c :: rest =>
    if c.isDigit then
      if x > 2 ^ 63 / 10 then Except.error ()
      else
        let x1 := x * 10 + (c.toNat - 48)
        if x1 > 2 ^ 63 then Except.error ()
        else leadingIntAux x1 rest
    else Except.ok (x, c :: rest)

/-- Model of Go time's leadingFraction: consume fractional digits,
freezing the accumulated value (but still consuming) once it would
overflow; `scale` counts ten to the number of accepted digits. -/
def leadingFractionAux (x scale : Nat) (overflow : Bool) :
    List Char → Nat × Nat × List Char
  | [] => (x, scale, [])
  | c :: rest =>
    if c.isDigit then
      if overflow then leadingFractionAux x scale overflow rest
      else if x > 2 ^ 63 / 10 then leadingFractionAux x scale true rest
      else
        let y := x * 10 + (c.toNat - 48)
        if y > 2 ^ 63 then leadingFractionAux x scale true rest
        else leadingFractionAux y (scale * 10) false rest
    else (x, scale, c :: rest)

/-- Split off the unit token: characters up to the next digit or dot. -/
def takeUnit : List Char → List Char × List Char
  | [] => ([], [])
  | c :: rest =>
    if c == '.' || c.isDigit then ([], c :: rest)
    else
      let p := takeUnit rest
      (c :: p.1, p.2)

/-- Go time's unitMap: nanoseconds per duration unit. -/
def unitValue (u : String) : Option Nat :=
  if u = "ns" then some 1
  else if u = "us" then some 1000
  else if u = "µs" then some 1000
  else if u = "μs" then some 1000
  else if u = "ms" then some 1000000
  else if u = "s" then some 1000000000
  else if u = "m" then some 60000000000
  else if u = "h" then some 3600000000000
  else none

/-- One pass of ParseDuration's main loop per fuel unit; every successful
iteration consumes at least one character, so fuel = input length + 1
always suffices. -/
def parseDurationIter (orig : String) : Nat → Nat → List Char → Except String Nat
  | _, d, [] => Except.ok d
  | 0, _, _ :: _ => Except.error ("time: invalid duration " ++ quoteGo orig)
  | fuel + 1, d, c :: cs =>
    if ¬ (c == '.' || c.isDigit) then
      Except.error ("time: invalid duration " ++ quoteGo orig)
    else
      match leadingIntAux 0 (c :: cs) with
      | Except.error _ => Except.error ("time: invalid duration " ++ quoteGo orig)
      | Except.ok (v, s1) =>
        let pre : Bool := s1.length != (c :: cs).length
        let fr : Nat × Nat × List Char × Bool :=
          match s1 with
          | '.' :: t =>
            let p := leadingFractionAux 0 1 false t
            (p.1, p.2.1, p.2.2, p.2.2.length != t.length)
          | _ => (0, 1, s1, false)
        if pre = false ∧ fr.2.2.2 = false then
          Except.error ("time: invalid duration " ++ quoteGo orig)
        else
          let u := takeUnit fr.2.2.1
          if u.1 = [] then
            Except.error ("time: missing unit in duration " ++ quoteGo orig)
          else
            match unitValue (String.mk u.1) with
            | none =>
              Except.error ("time: unknown unit " ++ quoteGo (String.mk u.1) ++
                " in duration " ++ quoteGo orig)
            | some unit =>
              if v > 2 ^ 63 / unit then
                Except.error ("time: invalid duration " ++ quoteGo orig)
              else
                let v2 := if fr.1 > 0 then v * unit + fr.1 * unit / fr.2.1
                          else v * unit
                if v2 > 2 ^ 63 then
                  Except.error ("time: invalid duration " ++ quoteGo orig)
                else if d + v2 > 2 ^ 63 then
                  Except.error ("time: invalid duration " ++ quoteGo orig)
                else parseDurationIter orig fuel (d + v2) u.2

/-- Model of Go `time.ParseDuration`, returning nanoseconds. -/
def parseDuration (s : String) : Except String Int :=
  let p : Bool × List Char :=
    match s.data with
    | c :: rest => if c == '-' || c == '+' then (c == '-', rest) else (false, s.data)
    | [] => (false, [])
  if p.2 = ['0'] then Except.ok 0
  else if p.2 = [] then Except.error ("time: invalid duration " ++ quoteGo s)
  else
    match parseDurationIter s (p.2.length + 1) 0 p.2 with
    | Except.error e => Except.error e
    | Except.ok d =>
      if p.1 then
        if d > 2 ^ 63 then Except.error ("time: invalid duration " ++ quoteGo s)
        else Except.ok (-(d : Int))
      else
        if d > 2 ^ 63 - 1 then Except.error ("time: invalid duration " ++ quoteGo s)
        else Except.ok (d : Int)


/- ## Backend values and the backend oracle

model.Value is the prometheus tagged union over scalar, vector, matrix
and string result shapes; its numeric/label payloads are irrelevant to the
pipeline's control flow, so samples are reduced to integers. -/

/-- Model of prometheus model.Value (tagged union of result shapes). -/
inductive Value where
  | scalar (v : Int)
  | vector (samples : List Int)
  | matrix (series : List (List Int))
  | str (s : String)
deriving DecidableEq

/-- One backend answer: the (result, warnings, error) triple returned by
v1.API.QueryRange. -/
structure BackendReply where
  result : Value
  warnings : List String
  error : Option String
deriving DecidableEq

/-- The metrics backend as a deterministic oracle from the rendered query
string to a reply.  The fixed range (start = now - duration, end = now,
step = one minute) carries no information beyond the duration, which the
claims never inspect, so it is not part of the oracle's input. -/
structure Backend where
  run : String → BackendReply

/-- Model of json.Marshal's output on an (optional) model.Value: an
injective textual encoding; `none` is Go's nil interface, marshaled as
null. -/
def encodeOptValue : Option Value → String
  | none => "null"
  | some (Value.scalar v) => "scalar:" ++ toString v
  | some (Value.vector l) => "vector:" ++ toString l
  | some (Value.matrix m) => "matrix:" ++ toString m
  | some (Value.str s) => "string:" ++ s

/-- Model of json.Marshal on an optional model.Value.  Marshal cannot fail
on these shapes (no cycles or unsupported types), so the error arm is
never produced; `execute` still matches on it, mirroring the source. -/
def marshalValue (v : Option Value) : Except String String :=
  Except.ok (encodeOptValue v)

/-- Model of fmt's rendering of a []string verb argument. -/
def fmtStringSlice (l : List String) : String :=
  "[" ++ String.intercalate " " l ++ "]"

/- ## executeGraphQuery -/

/-- The distinct error kinds produced in executeGraphQuery and execute;
each constructor corresponds to one fmt.Errorf format string of the
source. -/
inductive GoError where
  | templateParse (msg : String)
  | templateExec (msg : String)
  | backendQuery (msg : String)
  | queryWarnings (warnings : List String)
  | marshalData (msg : String)
  | marshalThreshold (msg : String)
deriving DecidableEq

/-- The (result, warnings, error) return of executeGraphQuery, extended
with the trace of query strings actually sent to the backend, which makes
the no-backend-call-on-early-failure properties statable. -/
structure EGQResult where
  result : Option Value
  warnings : List String
  error : Option GoError
  calls : List String
deriving DecidableEq

/-- The env1 construction of executeGraphQuery: each parameter's value
list is flattened by strings.Join with a comma. -/
def flattenEnv (env : List (String × List String)) : List (String × String) :=
  env.map (fun p => (p.1, String.intercalate "," p.2))

/-- Model of executeGraphQuery: parse the query template (error: no
backend call), render it against the flattened parameters, run the range
query, turn a backend error or a non-empty warnings list into an error. -/
def executeGraphQuery (backend : Backend) (queryExpression : String)
    (env : List (String × List String)) (duration : Int) : EGQResult :=
  match parseTemplate queryExpression with
  | Except.error e => ⟨none, [], some (GoError.templateParse e), []⟩
  | Except.ok parts =>
    let strQuery := renderTemplate (flattenEnv env) parts
    let reply := backend.run strQuery
    match reply.error with
    | some e => ⟨none, reply.warnings, some (GoError.backendQuery e), [strQuery]⟩
    | none =>
      if reply.warnings.length > 0 then
        ⟨some reply.result, reply.warnings,
         some (GoError.queryWarnings reply.warnings), [strQuery]⟩
      else ⟨some reply.result, [], none, [strQuery]⟩

/- The duration argument reaches only the v1.Range construction, which the
oracle abstracts away; it is kept in the signature for fidelity. -/

/- ## Configuration tree

The MetricsConfigProvider tree (applications, dashboards, rows, graphs,
thresholds) and its lookup methods live in the repository's config
package, which is not among the given sources; the structures and lookups
below are modelled from the spec (sections 3 and 4.1). -/

/-- Modelled from the spec: a threshold definition with identity, display
attributes and either a literal value or a query expression template. -/
structure Threshold where
  key : String
  name : String
  color : String
  unit : String
  value : String
  queryExpression : String
deriving DecidableEq

/-- Modelled from the spec: a graph with a query template and an ordered
threshold list. -/
structure Graph where
  name : String
  queryExpression : String
  thresholds : List Threshold
deriving DecidableEq

/-- Modelled from the spec: a row, a named set of graphs. -/
structure Row where
  name : String
  graphs : List Graph
deriving DecidableEq

/-- Modelled from the spec: a dashboard keyed by group-kind, optionally
flagged default. -/
structure Dashboard where
  groupKind : String
  isDefault : Bool
  rows : List Row
deriving DecidableEq

/-- Modelled from the spec: an application, optionally flagged default,
holding dashboards. -/
structure Application where
  name : String
  isDefault : Bool
  dashboards : List Dashboard
deriving DecidableEq

/-- Modelled from the spec: the immutable configuration tree. -/
structure MetricsConfigProvider where
  applications : List Application

/-- Modelled from the spec: getApp resolves an application by exact name,
falling back to the default-flagged one, else notFound (nil). -/
def getApp (c : MetricsConfigProvider) (name : String) : Option Application :=
  match c.applications.find? (fun a => a.name == name) with
  | some a => some a
  | none => c.applications.find? (fun a => a.isDefault)

/-- Modelled from the spec: getDashBoard resolves a dashboard by exact
group-kind, falling back to the default-flagged one, else notFound. -/
def getDashBoard (a : Application) (groupKind : String) : Option Dashboard :=
  match a.dashboards.find? (fun d => d.groupKind == groupKind) with
  | some d => some d
  | none => a.dashboards.find? (fun d => d.isDefault)

/-- Modelled from the spec: getRow is exact-name match only. -/
def getRow (d : Dashboard) (name : String) : Option Row :=
  d.rows.find? (fun r => r.name == name)

/-- Modelled from the spec: getGraph is exact-name match only. -/
def getGraph (r : Row) (name : String) : Option Graph :=
  r.graphs.find? (fun g => g.name == name)

/- ## The execute handler -/

/-- ThresholdResponse: the per-threshold output record, fields as in the
source struct (data holds the marshaled value). -/
structure ThresholdResponse where
  data : String
  key : String
  name : String
  color : String
  value : String
  unit : String
deriving DecidableEq

/-- A response body written through ctx.JSON: a plain string (the
not-found and warnings messages), an error value, or the aggregated
payload of data plus thresholds (thresholds is omitempty: the empty list
stands for the key's absence in the JSON). -/
inductive ResponseBody where
  | text (s : String)
  | err (e : GoError)
  | agg (data : String) (thresholds : List ThresholdResponse)
deriving DecidableEq

/-- http.StatusBadRequest. -/
def statusBadRequest : Nat := 400

/-- http.StatusOK. -/
def statusOK : Nat := 200

/-- The observable outcome of one execute call: the response written via
ctx.JSON, if any (the handler can fall through without writing one), and
the trace of backend calls issued while handling the request. -/
structure ExecuteOutcome where
  response : Option (Nat × ResponseBody)
  backendCalls : List String
deriving DecidableEq

/-- The query chosen for a threshold: threshold.Value when non-empty,
else threshold.QueryExpression (the if at the head of the loop body). -/
def thresholdQuery (t : Threshold) : String :=
  if t.value ≠ "" then t.value else t.queryExpression

/-- The execute loop over graph.Thresholds: evaluate each threshold in
order through executeGraphQuery; the first failure (error, warnings, or
marshal error) aborts with the body the source writes at that point, and
on success a ThresholdResponse carrying the threshold's unit, name,
value, key, color and marshaled data is appended.  Returns the backend
calls made and either the abort body or the completed result list. -/
def runThresholds (backend : Backend) (env : List (String × List String))
    (duration : Int) :
    List Threshold → List String × Except ResponseBody (List ThresholdResponse)
  | [] => ([], Except.ok [])
  | t :: rest =>
    let r := executeGraphQuery backend (thresholdQuery t) env duration
    match r.error with
    | some e => (r.calls, Except.error (ResponseBody.err e))
    | none =>
      if r.warnings.length > 0 then
        (r.calls, Except.error (ResponseBody.text
          ("query warnings: " ++ fmtStringSlice r.warnings)))
      else
        match marshalValue r.result with
        | Except.error e =>
          (r.calls, Except.error (ResponseBody.err (GoError.marshalThreshold e)))
        | Except.ok dataStr =>
          let res := runThresholds backend env duration rest
          (r.calls ++ res.1,
           match res.2 with
           | Except.error b => Except.error b
           | Except.ok l =>
             Except.ok (⟨dataStr, t.key, t.name, t.color, t.value, t.unit⟩ :: l))

/-- The duration string used by execute: the duration query parameter,
defaulting to "1h" when empty or absent. -/
def effectiveDurationStr (env : List (String × List String)) : String :=
  let d := queryGet env "duration"
  if d = "" then "1h" else d

/-- The body of execute once resolution has reached a graph (the inside
of the source's `if graph != nil` block): run the primary query, reject
on error or warnings, marshal the data, evaluate the thresholds, write
the first failure's 400 body or the aggregated 200 response. -/
def executeResolved (backend : Backend) (graph : Graph)
    (env : List (String × List String)) (duration : Int) : ExecuteOutcome :=
  let r := executeGraphQuery backend graph.queryExpression env duration
  match r.error with
  | some e => ⟨some (statusBadRequest, ResponseBody.err e), r.calls⟩
  | none =>
    if r.warnings.length > 0 then
      ⟨some (statusBadRequest, ResponseBody.text
        ("query warnings: " ++ fmtStringSlice r.warnings)), r.calls⟩
    else
      match marshalValue r.result with
      | Except.error e =>
        ⟨some (statusBadRequest,
          ResponseBody.err (GoError.marshalData e)), r.calls⟩
      | Except.ok dataStr =>
        let tr := runThresholds backend env duration graph.thresholds
        match tr.2 with
        | Except.error body =>
          ⟨some (statusBadRequest, body), r.calls ++ tr.1⟩
        | Except.ok ths =>
          ⟨some (statusOK, ResponseBody.agg dataStr ths), r.calls ++ tr.1⟩

/-- Model of the execute handler.  In request order: parse the duration
(after defaulting), resolve application, dashboard, row and graph; on a
graph match continue with executeResolved; every resolution failure
writes a 400 body.  A graph miss matches the source's if-with-no-else:
the handler returns without writing any response. -/
def execute (backend : Backend) (config : MetricsConfigProvider)
    (app groupKind rowName graphName : String)
    (env : List (String × List String)) : ExecuteOutcome :=
  match parseDuration (effectiveDurationStr env) with
  | Except.error e =>
    ⟨some (statusBadRequest, ResponseBody.text ("Invalid duration format :" ++ e)), []⟩
  | Except.ok duration =>
    match getApp config app with
    | none =>
      ⟨some (statusBadRequest,
        ResponseBody.text "Requested/Default Application not found"), []⟩
    | some application =>
      match getDashBoard application groupKind with
      | none =>
        ⟨some (statusBadRequest,
          ResponseBody.text "Requested/Default Dashboard not found"), []⟩
      | some dashboard =>
        match getRow dashboard rowName with
        | none =>
          ⟨some (statusBadRequest, ResponseBody.text "Requested Row not found"), []⟩
        | some row =>
          match getGraph row graphName with
          | none => ⟨none, []⟩
          | some graph => executeResolved backend graph env duration

/- ## headerRoundTripper

PrometheusProvider.init wraps the transport in a headerRoundTripper with
the single header entry "apikey" -> the PROMETHEUS_APIKEY environment
value.  RoundTrip adds each configured header to the request via
http.Header.Add — which canonicalizes the header key through
textproto.CanonicalMIMEHeaderKey — and produces debug output in which any
header named "apikey" (compared literally) is printed as REDACTED. -/

/-- Valid header-field token bytes, per net/textproto's table: ASCII
letters, digits and the characters of the set
bang hash dollar percent ampersand apostrophe star plus minus dot caret
underscore backtick pipe tilde. -/
def isTokenChar (c : Char) : Bool :=
  c.isAlphanum ||
    [ '!', '#', '$', '%', '&', Char.ofNat 39, '*', '+', '-', '.',
      '^', '_', Char.ofNat 96, '|', '~' ].contains c

/-- Canonicalization pass: uppercase the first letter and letters after a
hyphen, lowercase the rest. -/
def canonicalizeChars (upper : Bool) : List Char → List Char
  | [] => []
  | c :: rest =>
    let c1 := if upper then c.toUpper else c.toLower
    c1 :: canonicalizeChars (c1 == '-') rest

/-- Model of textproto.CanonicalMIMEHeaderKey: returned unchanged when
any byte is not a valid token char, else canonicalized. -/
def canonicalMIMEHeaderKey (s : String) : String :=
  if s.data.all isTokenChar then String.mk (canonicalizeChars true s.data)
  else s


/-- Model of http.Header.Add: append the value under the canonicalized
key, creating the entry when absent. -/
def headerAdd (h : List (String × List String)) (k v : String) :
    List (String × List String) :=
  let ck := canonicalMIMEHeaderKey k
  if h.any (fun p => p.1 == ck) then
    h.map (fun p => if p.1 == ck then (p.1, p.2 ++ [v]) else p)
  else h ++ [(ck, [v])]

/-- RoundTrip's first loop: add each configured header to the request and
log one add-line per header, redacting the value when the configured key
equals "apikey".  Returns the updated request headers and the log lines. -/
def addHeadersLoop (reqH : List (String × List String)) :
    List (String × String) → List (String × List String) × List String
  | [] => (reqH, [])
  | (k, v) :: rest =>
    let reqH1 := headerAdd reqH k v
    let line := if k ≠ "apikey" then "Added header: " ++ k ++ ": " ++ v
                else "Added header: " ++ k ++ ": [REDACTED]"
    let p := addHeadersLoop reqH1 rest
    (p.1, line :: p.2)

/-- RoundTrip's second loop: dump every request header, redacting the
value when the (canonicalized, stored) key equals "apikey". -/
def dumpHeadersLines : List (String × List String) → List String
  | [] => []
  | (k, vs) :: rest =>
    (if k ≠ "apikey" then "  " ++ k ++ ": " ++ fmtStringSlice vs
     else "  " ++ k ++ ": [REDACTED]") :: dumpHeadersLines rest

/-- One RoundTrip call's observable inputs: the wrapper's configured
headers (in iteration order), the request URL and the request's headers
before the call. -/
structure RoundTripInput where
  headers : List (String × String)
  reqURL : String
  reqHeaders : List (String × List String)

/-- Model of headerRoundTripper.RoundTrip's log output: the request-URL
line, the add-loop lines, the dump banner and the dump lines. -/
def roundTripLogs (inp : RoundTripInput) : List String :=
  let p := addHeadersLoop inp.reqHeaders inp.headers
  ("Making request to: " ++ inp.reqURL) :: p.2 ++
    ("All request headers:" :: dumpHeadersLines p.1)

/-- The RoundTrip input produced by PrometheusProvider.init when
PROMETHEUS_APIKEY is set: the wrapper's header map holds the single entry
"apikey" -> key, and a fresh outbound request starts with no headers. -/
def apiKeyInput (key url : String) : RoundTripInput :=
  ⟨[("apikey", key)], url, []⟩

/- ## Concrete fixtures -/

/-- A backend whose every reply is a clean one-sample vector. -/
def demoBackend : Backend :=
  ⟨fun _ => ⟨Value.vector [1], [], none⟩⟩

/-- A graph with no thresholds, as in the spec's first end-to-end scenario. -/
def demoGraph : Graph :=
  ⟨"usage", "up", []⟩

/-- A row holding demoGraph. -/
def demoRow : Row :=
  ⟨"cpu", [demoGraph]⟩

/-- A dashboard holding demoRow. -/
def demoDashboard : Dashboard :=
  ⟨"Deployment", true, [demoRow]⟩

/-- An application holding demoDashboard. -/
def demoApp : Application :=
  ⟨"default", true, [demoDashboard]⟩

/-- A one-application configuration tree. -/
def demoConfig : MetricsConfigProvider :=
  ⟨[demoApp]⟩

/-- A backend whose every reply carries data and one warning. -/
def warnBackend : Backend :=
  ⟨fun _ => ⟨Value.vector [1], ["w1"], none⟩⟩

/-- A backend that fails with a transport error on the query "bad" and
answers every other query cleanly. -/
def failBackend : Backend :=
  ⟨fun q => if q = "bad" then ⟨Value.vector [], [], some "boom"⟩
            else ⟨Value.vector [1], [], none⟩⟩

/-- A backend whose reply to the query "80" carries data and a warning
while every other query is answered cleanly: the primary query of the
threshold fixture is clean, its first threshold query is not. -/
def thrWarnBackend : Backend :=
  ⟨fun q => if q = "80" then ⟨Value.vector [2], ["w2"], none⟩
            else ⟨Value.vector [1], [], none⟩⟩

/-- Two thresholds: a literal-valued one and an expression-only one. -/
def thrList : List Threshold :=
  [⟨"k1", "warn", "orange", "%", "80", ""⟩,
   ⟨"k2", "crit", "red", "%", "", "bad"⟩]

/-- A graph carrying thrList. -/
def thrGraph : Graph :=
  ⟨"usage", "up", thrList⟩

/-- A row holding thrGraph. -/
def thrRow : Row :=
  ⟨"cpu", [thrGraph]⟩

/-- A dashboard holding thrRow. -/
def thrDashboard : Dashboard :=
  ⟨"Deployment", true, [thrRow]⟩

/-- An application holding thrDashboard. -/
def thrApp : Application :=
  ⟨"default", true, [thrDashboard]⟩

/-- A configuration tree whose single graph is thrGraph. -/
def thrConfig : MetricsConfigProvider :=
  ⟨[thrApp]⟩

/-- A threshold whose value field is itself a template action. -/
def tmplThreshold : Threshold :=
  ⟨"k1", "warn", "red", "ms", "\x7b\x7b.ns\x7d\x7d", ""⟩

/- ## General lemmas about the query path -/

/-- On a successful template parse, executeGraphQuery sends exactly one
backend call, the rendered query, whatever the backend answers. -/
theorem executeGraphQuery_calls (b : Backend) (q : String)
    (env : List (String × List String)) (d : Int) (parts : List TmplPart)
    (hp : parseTemplate q = Except.ok parts) :
    (executeGraphQuery b q env d).calls
      = [renderTemplate (flattenEnv env) parts] := by
  unfold executeGraphQuery
  rw [hp]
  dsimp only
  cases h : (b.run (renderTemplate (flattenEnv env) parts)).error
  · dsimp only
    split <;> rfl
  · rfl

/-- An error-free executeGraphQuery comes from a successful parse, a
clean backend reply with an empty warnings list, and returns the reply's
result with the single rendered call recorded. -/
theorem executeGraphQuery_success (b : Backend) (q : String)
    (env : List (String × List String)) (d : Int)
    (h : (executeGraphQuery b q env d).error = none) :
    ∃ parts, parseTemplate q = Except.ok parts ∧
      (b.run (renderTemplate (flattenEnv env) parts)).error = none ∧
      (b.run (renderTemplate (flattenEnv env) parts)).warnings = [] ∧
      executeGraphQuery b q env d
        = ⟨some (b.run (renderTemplate (flattenEnv env) parts)).result, [], none,
           [renderTemplate (flattenEnv env) parts]⟩ := by
  cases hp : parseTemplate q with
  | error e =>
    exfalso
    unfold executeGraphQuery at h
    rw [hp] at h
    simp at h
  | ok parts =>
    refine ⟨parts, rfl, ?_⟩
    unfold executeGraphQuery at h
    rw [hp] at h
    dsimp only at h
    cases herr : (b.run (renderTemplate (flattenEnv env) parts)).error with
    | some e => rw [herr] at h; simp at h
    | none =>
      rw [herr] at h
      by_cases hw : (b.run (renderTemplate (flattenEnv env) parts)).warnings.length > 0
      · rw [if_pos hw] at h; simp at h
      · refine ⟨rfl, List.length_eq_zero.mp (Nat.eq_zero_of_not_pos hw), ?_⟩
        unfold executeGraphQuery
        rw [hp]
        dsimp only
        rw [herr, if_neg hw]

/- ## Claim theorems -/

/-- C1: the claim says a graph-name miss (with application, dashboard and
row resolved) gets the same 400 treatment as every other resolution miss
and that the handler never completes without writing a response.  The
source's `if graph != nil` has no else branch: at such a request the
handler returns having written nothing, while a row-level miss does write
its 400 body.  Evaluated at a concrete configuration. -/
theorem c1_graph_miss_writes_no_response :
    execute demoBackend demoConfig "default" "Deployment" "cpu" "missing" []
      = ⟨none, []⟩ ∧
    (execute demoBackend demoConfig "default" "Deployment" "nope" "usage" []).response
      = some (statusBadRequest, ResponseBody.text "Requested Row not found") := by
  exact ⟨by decide, by decide⟩

/-- C2: the claim says the API key value never appears in any log output.
RoundTrip adds the key with http.Header.Add, which canonicalizes the
header name "apikey" to "Apikey"; the debug dump loop redacts only keys
literally equal to "apikey", so the dump line prints the key's value. -/
theorem c2_apikey_value_leaks_in_dump :
    canonicalMIMEHeaderKey "apikey" = "Apikey" ∧
    "  Apikey: [secret123]" ∈
      roundTripLogs (apiKeyInput "secret123" "https://prom.example/api/v1/query_range") ∧
    (roundTripLogs (apiKeyInput "secret123" "https://prom.example/api/v1/query_range")).any
      (fun l => strContains l "secret123") = true := by
  exact ⟨by decide, by decide, by decide⟩

/-- C5: a query whose template fails to parse is surfaced as a template
error with an empty backend-call trace: no network request is issued. -/
theorem c5_template_error_no_backend_call (backend : Backend)
    (queryExpression : String) (env : List (String × List String)) (dur : Int)
    (msg : String) (h : parseTemplate queryExpression = Except.error msg) :
    executeGraphQuery backend queryExpression env dur
      = ⟨none, [], some (GoError.templateParse msg), []⟩ := by
  unfold executeGraphQuery
  rw [h]

/-- Witness for C5 at an unterminated action. -/
theorem c5_template_error_no_backend_call_witness :
    parseTemplate "\x7b\x7b" = Except.error "template: bad action" ∧
    executeGraphQuery demoBackend "\x7b\x7b" [] 60
      = ⟨none, [], some (GoError.templateParse "template: bad action"), []⟩ :=
  ⟨rfl, c5_template_error_no_backend_call demoBackend "\x7b\x7b" [] 60
    "template: bad action" rfl⟩

/-- Evaluating a single threshold issues exactly the backend calls of
executing its chosen query. -/
theorem runThresholds_single_calls (b : Backend)
    (env : List (String × List String)) (d : Int) (t : Threshold) :
    (runThresholds b env d [t]).1
      = (executeGraphQuery b (thresholdQuery t) env d).calls := by
  unfold runThresholds
  dsimp only
  cases h : (executeGraphQuery b (thresholdQuery t) env d).error
  · dsimp only
    split
    · rfl
    · dsimp only [marshalValue]
      simp [runThresholds]
  · rfl

/-- C4: a threshold with a non-empty value executes the value literal as
its query — the singleton evaluation's backend calls are exactly those of
executing the value — and the queryExpression path is taken only when the
value is empty. -/
theorem c4_threshold_value_precedence (b : Backend)
    (env : List (String × List String)) (d : Int) (t : Threshold)
    (h : t.value ≠ "") :
    thresholdQuery t = t.value ∧
    (runThresholds b env d [t]).1 = (executeGraphQuery b t.value env d).calls ∧
    (∀ t2 : Threshold, t2.value = "" → thresholdQuery t2 = t2.queryExpression) := by
  have hq : thresholdQuery t = t.value := if_pos h
  refine ⟨hq, ?_, ?_⟩
  · rw [runThresholds_single_calls, hq]
  · intro t2 h2
    unfold thresholdQuery
    rw [if_neg (not_not_intro h2)]

/-- Witness for C4 at a threshold carrying both a value and an expression. -/
theorem c4_threshold_value_precedence_witness :
    thresholdQuery ⟨"k", "warn", "red", "%", "5", "up"⟩ = "5" ∧
    (runThresholds demoBackend [] 60 [⟨"k", "warn", "red", "%", "5", "up"⟩]).1
      = (executeGraphQuery demoBackend "5" [] 60).calls :=
  ⟨(c4_threshold_value_precedence demoBackend [] 60
      ⟨"k", "warn", "red", "%", "5", "up"⟩ (by decide)).1,
   (c4_threshold_value_precedence demoBackend [] 60
      ⟨"k", "warn", "red", "%", "5", "up"⟩ (by decide)).2.1⟩

/-- C6: an absent duration parameter defaults to "1h", which parses to
one hour in nanoseconds, and a malformed duration literal makes execute
write the 400 invalid-duration body with an empty backend-call trace. -/
theorem c6_duration_default_and_rejection (backend : Backend)
    (config : MetricsConfigProvider) (app groupKind rowName graphName : String)
    (env : List (String × List String)) :
    (queryGet env "duration" = "" → effectiveDurationStr env = "1h") ∧
    parseDuration "1h" = Except.ok 3600000000000 ∧
    (∀ msg, parseDuration (effectiveDurationStr env) = Except.error msg →
      execute backend config app groupKind rowName graphName env
        = ⟨some (statusBadRequest,
            ResponseBody.text ("Invalid duration format :" ++ msg)), []⟩) := by
  refine ⟨?_, rfl, ?_⟩
  · intro h
    unfold effectiveDurationStr
    dsimp only
    rw [h]
    simp
  · intro msg hmsg
    unfold execute
    rw [hmsg]

/-- Witness for C6: the empty query defaults to one hour; a request with
duration "bogus" is rejected with zero backend calls. -/
theorem c6_duration_default_and_rejection_witness :
    effectiveDurationStr [] = "1h" ∧
    parseDuration "1h" = Except.ok 3600000000000 ∧
    execute demoBackend demoConfig "default" "Deployment" "cpu" "usage"
        [("duration", ["bogus"])]
      = ⟨some (statusBadRequest, ResponseBody.text
          ("Invalid duration format :" ++ "time: invalid duration \"bogus\"")), []⟩ :=
  ⟨(c6_duration_default_and_rejection demoBackend demoConfig
      "default" "Deployment" "cpu" "usage" []).1 rfl,
   (c6_duration_default_and_rejection demoBackend demoConfig
      "default" "Deployment" "cpu" "usage" []).2.1,
   (c6_duration_default_and_rejection demoBackend demoConfig
      "default" "Deployment" "cpu" "usage" [("duration", ["bogus"])]).2.2
     "time: invalid duration \"bogus\"" rfl⟩

/-- When the duration parses and all four lookups resolve, execute is the
post-resolution body on the resolved graph. -/
theorem execute_reaches_graph (backend : Backend) (config : MetricsConfigProvider)
    (app groupKind rowName graphName : String) (env : List (String × List String))
    (dur : Int) (application : Application) (dashboard : Dashboard) (row : Row)
    (graph : Graph)
    (hdur : parseDuration (effectiveDurationStr env) = Except.ok dur)
    (happ : getApp config app = some application)
    (hdash : getDashBoard application groupKind = some dashboard)
    (hrow : getRow dashboard rowName = some row)
    (hgraph : getGraph row graphName = some graph) :
    execute backend config app groupKind rowName graphName env
      = executeResolved backend graph env dur := by
  unfold execute
  rw [hdur]
  dsimp only
  rw [happ]
  dsimp only
  rw [hdash]
  dsimp only
  rw [hrow]
  dsimp only
  rw [hgraph]

/-- An abort body produced by threshold evaluation is an error value or a
warnings message, never an aggregated payload. -/
theorem runThresholds_error_shape (b : Backend)
    (env : List (String × List String)) (dur : Int) (ts : List Threshold)
    (body : ResponseBody)
    (h : (runThresholds b env dur ts).2 = Except.error body) :
    (∃ e, body = ResponseBody.err e) ∨ (∃ s, body = ResponseBody.text s) := by
  revert h
  induction ts with
  | nil => intro h; exact absurd h (by simp [runThresholds])
  | cons t rest ih =>
    intro h
    unfold runThresholds at h
    dsimp only at h
    cases he : (executeGraphQuery b (thresholdQuery t) env dur).error with
    | some e =>
      rw [he] at h
      dsimp only at h
      exact Or.inl ⟨e, by injection h with h2; exact h2.symm⟩
    | none =>
      rw [he] at h
      dsimp only at h
      by_cases hw : (executeGraphQuery b (thresholdQuery t) env dur).warnings.length > 0
      · rw [if_pos hw] at h
        dsimp only at h
        exact Or.inr ⟨_, by injection h with h2; exact h2.symm⟩
      · rw [if_neg hw] at h
        dsimp only [marshalValue] at h
        cases hr : (runThresholds b env dur rest).2 with
        | error b2 =>
          rw [hr] at h
          dsimp only at h
          injection h with h2
          exact ih (h2 ▸ hr)
        | ok l2 =>
          rw [hr] at h
          dsimp only at h
          exact absurd h (by simp)

/-- If any threshold of the list fails, threshold evaluation aborts with
some error body. -/
theorem runThresholds_fail_of_mem (b : Backend)
    (env : List (String × List String)) (dur : Int) (ts : List Threshold)
    (h : ∃ t ∈ ts, (executeGraphQuery b (thresholdQuery t) env dur).error ≠ none) :
    ∃ body, (runThresholds b env dur ts).2 = Except.error body := by
  revert h
  induction ts with
  | nil =>
    intro h
    obtain ⟨t, ht, _⟩ := h
    exact absurd ht (List.not_mem_nil t)
  | cons t rest ih =>
    intro h
    by_cases he : (executeGraphQuery b (thresholdQuery t) env dur).error = none
    · have hw : (executeGraphQuery b (thresholdQuery t) env dur).warnings = [] := by
        obtain ⟨parts, hp, herr, hwarn, heq⟩ :=
          executeGraphQuery_success b (thresholdQuery t) env dur he
        rw [heq]
      have hmem : ∃ t2 ∈ rest,
          (executeGraphQuery b (thresholdQuery t2) env dur).error ≠ none := by
        obtain ⟨t2, ht2, hne⟩ := h
        rcases List.mem_cons.mp ht2 with rfl | h2
        · exact absurd he hne
        · exact ⟨t2, h2, hne⟩
      obtain ⟨body, hbody⟩ := ih hmem
      refine ⟨body, ?_⟩
      unfold runThresholds
      dsimp only
      rw [he]
      dsimp only
      rw [hw]
      rw [if_neg (show ¬(([] : List String).length > 0) by decide)]
      dsimp only [marshalValue]
      rw [hbody]
    · obtain ⟨e, he2⟩ := Option.ne_none_iff_exists'.mp he
      refine ⟨ResponseBody.err e, ?_⟩
      unfold runThresholds
      dsimp only
      rw [he2]

/-- A completed threshold evaluation means every threshold of the list
evaluated without error. -/
theorem runThresholds_ok_all_success (b : Backend)
    (env : List (String × List String)) (dur : Int) (ts : List Threshold)
    (l : List ThresholdResponse)
    (h : (runThresholds b env dur ts).2 = Except.ok l) :
    ∀ t ∈ ts, (executeGraphQuery b (thresholdQuery t) env dur).error = none := by
  revert l h
  induction ts with
  | nil =>
    intro l h t ht
    exact absurd ht (List.not_mem_nil t)
  | cons t rest ih =>
    intro l h t2 ht2
    unfold runThresholds at h
    dsimp only at h
    cases he : (executeGraphQuery b (thresholdQuery t) env dur).error with
    | some e =>
      rw [he] at h
      exact absurd h (by simp)
    | none =>
      rw [he] at h
      dsimp only at h
      have hw : (executeGraphQuery b (thresholdQuery t) env dur).warnings = [] := by
        obtain ⟨parts, hp, herr, hwarn, heq⟩ :=
          executeGraphQuery_success b (thresholdQuery t) env dur he
        rw [heq]
      rw [hw] at h
      rw [if_neg (show ¬(([] : List String).length > 0) by decide)] at h
      dsimp only [marshalValue] at h
      cases hr : (runThresholds b env dur rest).2 with
      | error b2 =>
        rw [hr] at h
        exact absurd h (by simp)
      | ok l2 =>
        rcases List.mem_cons.mp ht2 with rfl | hmem
        · exact he
        · exact ih l2 hr t2 hmem

/-- C3: a backend reply with a non-empty warnings list and no transport
error fails the whole request, on the primary query and on any threshold
query alike.  On the primary query the request's response is the
query-warnings 400; on any threshold of the graph whose query's reply
carries warnings, that threshold's evaluation errors with the
query-warnings kind while retaining the reply's data, and the request's
response is a 400 error body that is never an aggregated payload; and the
query-warnings failure is a different error kind from a backend error. -/
theorem c3_warnings_fatal (backend : Backend) (config : MetricsConfigProvider)
    (app groupKind rowName graphName : String) (env : List (String × List String))
    (dur : Int) (application : Application) (dashboard : Dashboard) (row : Row)
    (graph : Graph)
    (hdur : parseDuration (effectiveDurationStr env) = Except.ok dur)
    (happ : getApp config app = some application)
    (hdash : getDashBoard application groupKind = some dashboard)
    (hrow : getRow dashboard rowName = some row)
    (hgraph : getGraph row graphName = some graph) :
    (∀ parts v ws,
      parseTemplate graph.queryExpression = Except.ok parts →
      backend.run (renderTemplate (flattenEnv env) parts) = ⟨v, ws, none⟩ →
      ws ≠ [] →
      executeGraphQuery backend graph.queryExpression env dur
          = ⟨some v, ws, some (GoError.queryWarnings ws),
             [renderTemplate (flattenEnv env) parts]⟩ ∧
      (execute backend config app groupKind rowName graphName env).response
          = some (statusBadRequest, ResponseBody.err (GoError.queryWarnings ws))) ∧
    (∀ t ∈ graph.thresholds, ∀ parts v ws,
      parseTemplate (thresholdQuery t) = Except.ok parts →
      backend.run (renderTemplate (flattenEnv env) parts) = ⟨v, ws, none⟩ →
      ws ≠ [] →
      executeGraphQuery backend (thresholdQuery t) env dur
          = ⟨some v, ws, some (GoError.queryWarnings ws),
             [renderTemplate (flattenEnv env) parts]⟩ ∧
      ∃ body, (execute backend config app groupKind rowName graphName env).response
            = some (statusBadRequest, body) ∧
          ∀ d l, body ≠ ResponseBody.agg d l) ∧
    (∀ (ws : List String) (m : String),
      GoError.queryWarnings ws ≠ GoError.backendQuery m) := by
  have hegq_of : ∀ (q : String) (parts : List TmplPart) (v : Value) (ws : List String),
      parseTemplate q = Except.ok parts →
      backend.run (renderTemplate (flattenEnv env) parts) = ⟨v, ws, none⟩ →
      ws ≠ [] →
      executeGraphQuery backend q env dur
        = ⟨some v, ws, some (GoError.queryWarnings ws),
           [renderTemplate (flattenEnv env) parts]⟩ := by
    intro q parts v ws hp hrun hws
    unfold executeGraphQuery
    rw [hp]
    dsimp only
    rw [hrun]
    dsimp only
    rw [if_pos (List.length_pos.mpr hws)]
  have hexec : execute backend config app groupKind rowName graphName env
      = executeResolved backend graph env dur :=
    execute_reaches_graph backend config app groupKind rowName graphName env
      dur application dashboard row graph hdur happ hdash hrow hgraph
  refine ⟨?_, ?_, ?_⟩
  · intro parts v ws hp hrun hws
    have he := hegq_of graph.queryExpression parts v ws hp hrun hws
    refine ⟨he, ?_⟩
    rw [hexec]
    unfold executeResolved
    dsimp only
    rw [he]
  · intro t ht parts v ws hp hrun hws
    have he := hegq_of (thresholdQuery t) parts v ws hp hrun hws
    refine ⟨he, ?_⟩
    cases hprim : (executeGraphQuery backend graph.queryExpression env dur).error with
    | some e =>
      refine ⟨ResponseBody.err e, ?_, ?_⟩
      · rw [hexec]
        unfold executeResolved
        dsimp only
        rw [hprim]
      · intro d l hcon
        exact ResponseBody.noConfusion hcon
    | none =>
      have htfail : ∃ t2 ∈ graph.thresholds,
          (executeGraphQuery backend (thresholdQuery t2) env dur).error ≠ none := by
        refine ⟨t, ht, ?_⟩
        rw [he]
        simp
      obtain ⟨body, hbody⟩ :=
        runThresholds_fail_of_mem backend env dur graph.thresholds htfail
      refine ⟨body, ?_, ?_⟩
      · obtain ⟨parts0, hp0, herr0, hwarn0, heq0⟩ :=
          executeGraphQuery_success backend graph.queryExpression env dur hprim
        rw [hexec]
        unfold executeResolved
        dsimp only
        rw [heq0]
        dsimp only
        rw [if_neg (show ¬(([] : List String).length > 0) by decide)]
        dsimp only [marshalValue]
        rw [hbody]
      · intro d l hcon
        rcases runThresholds_error_shape backend env dur graph.thresholds body hbody
          with ⟨e, rfl⟩ | ⟨s, rfl⟩
        · exact ResponseBody.noConfusion hcon
        · exact ResponseBody.noConfusion hcon
  · intro ws m hcon
    exact GoError.noConfusion hcon

/-- Witness for C3: a warning-carrying reply on the primary query fails
one request with the query-warnings 400, and a warning-carrying reply on
a threshold query (primary clean) errors that threshold's evaluation,
retains its data, and fails that request with the query-warnings 400. -/
theorem c3_warnings_fatal_witness :
    (execute warnBackend demoConfig "default" "Deployment" "cpu" "usage" []).response
      = some (statusBadRequest, ResponseBody.err (GoError.queryWarnings ["w1"])) ∧
    executeGraphQuery warnBackend demoGraph.queryExpression [] 3600000000000
      = ⟨some (Value.vector [1]), ["w1"],
         some (GoError.queryWarnings ["w1"]), ["up"]⟩ ∧
    executeGraphQuery thrWarnBackend
        (thresholdQuery ⟨"k1", "warn", "orange", "%", "80", ""⟩) [] 3600000000000
      = ⟨some (Value.vector [2]), ["w2"],
         some (GoError.queryWarnings ["w2"]), ["80"]⟩ ∧
    (execute thrWarnBackend thrConfig "default" "Deployment" "cpu" "usage" []).response
      = some (statusBadRequest, ResponseBody.err (GoError.queryWarnings ["w2"])) :=
  ⟨((c3_warnings_fatal warnBackend demoConfig "default" "Deployment" "cpu" "usage" []
      3600000000000 demoApp demoDashboard demoRow demoGraph
      rfl rfl rfl rfl rfl).1 [TmplPart.lit "up"] (Value.vector [1]) ["w1"]
      rfl rfl (by decide)).2,
   ((c3_warnings_fatal warnBackend demoConfig "default" "Deployment" "cpu" "usage" []
      3600000000000 demoApp demoDashboard demoRow demoGraph
      rfl rfl rfl rfl rfl).1 [TmplPart.lit "up"] (Value.vector [1]) ["w1"]
      rfl rfl (by decide)).1,
   ((c3_warnings_fatal thrWarnBackend thrConfig "default" "Deployment" "cpu" "usage" []
      3600000000000 thrApp thrDashboard thrRow thrGraph
      rfl rfl rfl rfl rfl).2.1 ⟨"k1", "warn", "orange", "%", "80", ""⟩ (by decide)
      [TmplPart.lit "80"] (Value.vector [2]) ["w2"] rfl rfl (by decide)).1,
   rfl⟩

/-- Looking a key up after flattening yields the comma-join of the values
the key had before flattening. -/
theorem lookupStr_flattenEnv (env : List (String × List String)) (k : String) :
    lookupStr (flattenEnv env) k
      = (lookupParam env k).map (String.intercalate ",") := by
  induction env with
  | nil => rfl
  | cons p rest ih =>
    obtain ⟨pk, pv⟩ := p
    simp only [flattenEnv, List.map_cons] at ih ⊢
    by_cases h : pk = k
    · simp [lookupStr, lookupParam, h]
    · simp only [lookupStr, lookupParam, if_neg h]
      exact ih

/-- Rendering a literal-action-literal template substitutes the bound
value, HTML-escaped, between the literals. -/
theorem renderTemplate_three (env1 : List (String × String)) (pre post : String)
    (k v : String) (hv : lookupStr env1 k = some v) :
    renderTemplate env1 [TmplPart.lit pre, TmplPart.field k, TmplPart.lit post]
      = pre ++ htmlEscape v ++ post := by
  simp only [renderTemplate, hv, Option.getD_some, String.append_empty]
  rw [← String.append_assoc]

/-- C7: a multi-valued parameter substitutes as the comma-join of its
ordered values, and executeGraphQuery is deterministic in its inputs: the
rendered query sent to the backend is exactly the literal-join-literal
string, and equal parameter maps give equal outcomes. -/
theorem c7_param_join_and_determinism (b : Backend) (tpl : String)
    (env : List (String × List String)) (k pre post : String) (vs : List String)
    (dur : Int)
    (hp : parseTemplate tpl
      = Except.ok [TmplPart.lit pre, TmplPart.field k, TmplPart.lit post])
    (h : lookupParam env k = some vs) :
    renderTemplate (flattenEnv env) [TmplPart.lit pre, TmplPart.field k, TmplPart.lit post]
      = pre ++ htmlEscape (String.intercalate "," vs) ++ post ∧
    (executeGraphQuery b tpl env dur).calls
      = [pre ++ htmlEscape (String.intercalate "," vs) ++ post] ∧
    (∀ env2, env2 = env →
      executeGraphQuery b tpl env2 dur = executeGraphQuery b tpl env dur) := by
  have hv : lookupStr (flattenEnv env) k = some (String.intercalate "," vs) := by
    rw [lookupStr_flattenEnv, h]
    rfl
  have hr := renderTemplate_three (flattenEnv env) pre post k _ hv
  refine ⟨hr, ?_, ?_⟩
  · rw [executeGraphQuery_calls b tpl env dur _ hp, hr]
  · intro env2 he
    rw [he]

/-- Witness for C7 at the two-valued parameter of the spec's example. -/
theorem c7_param_join_and_determinism_witness :
    renderTemplate (flattenEnv [("ns", ["a", "b"])])
        [TmplPart.lit "q(", TmplPart.field "ns", TmplPart.lit ")"] = "q(a,b)" ∧
    (executeGraphQuery demoBackend "q(\x7b\x7b.ns\x7d\x7d)" [("ns", ["a", "b"])] 60).calls
      = ["q(a,b)"] := by
  have h := c7_param_join_and_determinism demoBackend "q(\x7b\x7b.ns\x7d\x7d)"
    [("ns", ["a", "b"])] "ns" "q(" ")" ["a", "b"] 60 rfl rfl
  exact ⟨by rw [h.1]; decide, by rw [h.2.1]; decide⟩

/-- C8 counterexample: the claim says a successful threshold's result
carries the value as rendered.  For a threshold whose value is itself a
template action, the query executed is the rendered value but the emitted
ThresholdResponse.Value is the raw configured string, which differs from
the rendered one. -/
theorem c8_value_as_rendered_counterexample :
    (runThresholds demoBackend [("ns", ["5"])] 60 [tmplThreshold]).2
      = Except.ok [⟨encodeOptValue (some (Value.vector [1])), "k1", "warn", "red",
          "\x7b\x7b.ns\x7d\x7d", "ms"⟩] ∧
    renderTemplate (flattenEnv [("ns", ["5"])]) [TmplPart.field "ns"] = "5" ∧
    parseTemplate tmplThreshold.value = Except.ok [TmplPart.field "ns"] ∧
    ("\x7b\x7b.ns\x7d\x7d" : String) ≠ "5" :=
  ⟨rfl, by decide, rfl, by decide⟩

/-- C8 as amended: when every threshold of the list evaluates without
error, the evaluation succeeds with one ThresholdResponse per threshold,
in configured order, carrying the threshold's key, name, color, unit, the
marshaled query result as data, and the configured value string verbatim
(not its rendered form). -/
theorem c8_threshold_fields_and_order (b : Backend)
    (env : List (String × List String)) (dur : Int) (ts : List Threshold)
    (h : ∀ t ∈ ts, (executeGraphQuery b (thresholdQuery t) env dur).error = none) :
    (runThresholds b env dur ts).2
      = Except.ok (ts.map (fun t =>
          ⟨encodeOptValue (executeGraphQuery b (thresholdQuery t) env dur).result,
           t.key, t.name, t.color, t.value, t.unit⟩)) := by
  revert h
  induction ts with
  | nil => intro h; rfl
  | cons t rest ih =>
    intro h
    have ht := h t (List.mem_cons_self t rest)
    have hrest : ∀ t2 ∈ rest,
        (executeGraphQuery b (thresholdQuery t2) env dur).error = none :=
      fun t2 h2 => h t2 (List.mem_cons_of_mem t h2)
    have hw : (executeGraphQuery b (thresholdQuery t) env dur).warnings = [] := by
      obtain ⟨parts, hp, herr, hwarn, heq⟩ :=
        executeGraphQuery_success b (thresholdQuery t) env dur ht
      rw [heq]
    unfold runThresholds
    dsimp only
    rw [ht]
    dsimp only
    rw [hw]
    rw [if_neg (show ¬(([] : List String).length > 0) by decide)]
    dsimp only [marshalValue]
    rw [ih hrest]
    rw [List.map_cons]

/-- Witness for the amended C8 on the two-threshold fixture. -/
theorem c8_threshold_fields_and_order_witness :
    (runThresholds demoBackend [] 60 thrList).2
      = Except.ok (thrList.map (fun t =>
          ⟨encodeOptValue (executeGraphQuery demoBackend (thresholdQuery t) [] 60).result,
           t.key, t.name, t.color, t.value, t.unit⟩)) :=
  c8_threshold_fields_and_order demoBackend [] 60 thrList (by decide)

/-- C9: with the request resolved to a graph and the primary query clean,
threshold evaluation is all-or-nothing: an abort body becomes the whole
request's 400 response and is never an aggregated payload (no partial
threshold results); any single failing threshold forces such an abort;
and a 200 aggregated response certifies that the emitted list is the
completed evaluation and every threshold succeeded. -/
theorem c9_all_or_nothing (backend : Backend) (config : MetricsConfigProvider)
    (app groupKind rowName graphName : String) (env : List (String × List String))
    (dur : Int) (application : Application) (dashboard : Dashboard) (row : Row)
    (graph : Graph)
    (hdur : parseDuration (effectiveDurationStr env) = Except.ok dur)
    (happ : getApp config app = some application)
    (hdash : getDashBoard application groupKind = some dashboard)
    (hrow : getRow dashboard rowName = some row)
    (hgraph : getGraph row graphName = some graph)
    (hprimary : (executeGraphQuery backend graph.queryExpression env dur).error = none) :
    (∀ body, (runThresholds backend env dur graph.thresholds).2 = Except.error body →
      (execute backend config app groupKind rowName graphName env).response
          = some (statusBadRequest, body) ∧
        ∀ d l, body ≠ ResponseBody.agg d l) ∧
    ((∃ t ∈ graph.thresholds,
        (executeGraphQuery backend (thresholdQuery t) env dur).error ≠ none) →
      ∃ body, (runThresholds backend env dur graph.thresholds).2
          = Except.error body) ∧
    (∀ d l, (execute backend config app groupKind rowName graphName env).response
        = some (statusOK, ResponseBody.agg d l) →
      (runThresholds backend env dur graph.thresholds).2 = Except.ok l ∧
      ∀ t ∈ graph.thresholds,
        (executeGraphQuery backend (thresholdQuery t) env dur).error = none) := by
  obtain ⟨parts, hp, herr, hwarn, heq⟩ :=
    executeGraphQuery_success backend graph.queryExpression env dur hprimary
  have hexec : execute backend config app groupKind rowName graphName env
      = executeResolved backend graph env dur :=
    execute_reaches_graph backend config app groupKind rowName graphName env
      dur application dashboard row graph hdur happ hdash hrow hgraph
  have hres : executeResolved backend graph env dur
      = match (runThresholds backend env dur graph.thresholds).2 with
        | Except.error body =>
          ⟨some (statusBadRequest, body),
           [renderTemplate (flattenEnv env) parts]
             ++ (runThresholds backend env dur graph.thresholds).1⟩
        | Except.ok ths =>
          ⟨some (statusOK, ResponseBody.agg
              (encodeOptValue (some
                (backend.run (renderTemplate (flattenEnv env) parts)).result)) ths),
           [renderTemplate (flattenEnv env) parts]
             ++ (runThresholds backend env dur graph.thresholds).1⟩ := by
    unfold executeResolved
    dsimp only
    rw [heq]
    dsimp only
    rw [if_neg (show ¬(([] : List String).length > 0) by decide)]
    dsimp only [marshalValue]
  refine ⟨?_, ?_, ?_⟩
  · intro body hbody
    constructor
    · rw [hexec, hres, hbody]
    · intro d l hcon
      rcases runThresholds_error_shape backend env dur graph.thresholds body hbody
        with ⟨e, rfl⟩ | ⟨s, rfl⟩
      · exact ResponseBody.noConfusion hcon
      · exact ResponseBody.noConfusion hcon
  · exact runThresholds_fail_of_mem backend env dur graph.thresholds
  · intro d l hresp
    rw [hexec, hres] at hresp
    cases hthr : (runThresholds backend env dur graph.thresholds).2 with
    | error body =>
      rw [hthr] at hresp
      dsimp only at hresp
      exact absurd hresp (by simp [statusBadRequest, statusOK])
    | ok l2 =>
      rw [hthr] at hresp
      dsimp only at hresp
      have hl : l2 = l := by
        have h2 := Option.some.inj hresp
        have h3 := congrArg Prod.snd h2
        dsimp only at h3
        cases h3
        rfl
      subst hl
      exact ⟨rfl, runThresholds_ok_all_success backend env dur graph.thresholds l2 hthr⟩

/-- Witness for C9: a graph whose second threshold's query fails at the
backend aborts the whole request with that failure. -/
theorem c9_all_or_nothing_witness :
    (execute failBackend thrConfig "default" "Deployment" "cpu" "usage" []).response
      = some (statusBadRequest, ResponseBody.err (GoError.backendQuery "boom")) ∧
    (runThresholds failBackend [] 3600000000000 thrGraph.thresholds).2
      = Except.error (ResponseBody.err (GoError.backendQuery "boom")) := by
  have h := c9_all_or_nothing failBackend thrConfig "default" "Deployment" "cpu"
    "usage" [] 3600000000000 thrApp thrDashboard thrRow thrGraph
    rfl rfl rfl rfl rfl (by decide)
  exact ⟨(h.1 (ResponseBody.err (GoError.backendQuery "boom")) rfl).1, rfl⟩

end ArgoMetrics
